import Mathlib

/-!
# The `get` command of the topology CLI (`pkg/topo/get.go`)

A shallow embedding of `runGetCommand`, `listObjects`, `getObject`, `printHeader`,
`printObject`, `printAspects` and `aspectList`.

Modelling conventions.

* A Go string is modelled by the list of its runes (`Text`).  The formatting verbs used
  by the program count width and precision in runes, so nothing is lost.
* An `io.Writer` is modelled by the text that has been written to it so far; a function
  that writes takes that text and returns the extended text.  In `runGetCommand` the
  writer is the `tabwriter.Writer` created by the command, so `writer` texts below are
  the text *handed to* that tab writer; what the tab writer passes on to the CLI output
  (cell alignment, buffering until a flush) is library behaviour and not modelled.
  Text which `cli.Output` sends straight to the CLI output is kept apart, as `output`.
* The remote service and the connection helper are parameters of the command
  (`Command.GetConnection`, `Command.ClientList`, `Command.ClientGet`).
* A nil pointer is `none`; dereferencing it is a run-time panic, modelled by the
  result `none` of `printObject` and by `Outcome.panicked` of `runGetCommand`.
-/

namespace Topo

/-! ## The data model -/

/-- Text of a Go string, as its sequence of runes. -/
abbrev Text := List Char

/-- The string type `topoapi.ID`. -/
abbrev ID := Text

/-- A Go `error` value. -/
structure Error where
  msg : String
  deriving DecidableEq, Repr

/-- Modelled from the spec: the type tag of an object, the enumeration `Object_Type` of the
topology API, whose declaration is not part of the sources. -/
inductive Object_Type where
  | UNSPECIFIED
  | ENTITY
  | RELATION
  | KIND
  deriving DecidableEq, Repr

/-- Modelled from the spec: the `String` method of the type tag, which is generated code of
the topology API and not part of the sources; the tag is shown by its name. -/
def Object_Type.String : Object_Type → Text
  | .UNSPECIFIED => "UNSPECIFIED".toList
  | .ENTITY => "ENTITY".toList
  | .RELATION => "RELATION".toList
  | .KIND => "KIND".toList

/-- Modelled from the spec: the Entity variant, which adds a kind-identifier. -/
structure Entity where
  KindID : ID
  deriving DecidableEq, Repr

/-- Modelled from the spec: the Relation variant, which adds a kind-identifier and the
source and target entity identifiers. -/
structure Relation where
  KindID : ID
  SrcEntityID : ID
  TgtEntityID : ID
  deriving DecidableEq, Repr

/-- Modelled from the spec: the Kind variant, which adds a name. -/
structure Kind where
  Name : Text
  deriving DecidableEq, Repr

/-- Modelled from the spec: an aspect payload, opaque bytes that are only ever displayed
as text (the field `Value` read by `printAspects`). -/
structure Any where
  Value : Text
  deriving DecidableEq, Repr

/-- Modelled from the spec: the variant payload of an object (its `Obj` one-of), declared
in the topology API: a pointer, possibly nil, to an entity, a relation or a kind. -/
inductive isObject_Obj where
  | Object_Entity (Entity : Option Entity)
  | Object_Relation (Relation : Option Relation)
  | Object_Kind (Kind : Option Kind)
  deriving DecidableEq, Repr

/-- Modelled from the spec: the Object record of the topology API, whose declaration is not
part of the sources.  It has an identifier, a type tag, a variant payload and the aspects
map.  The payload is stored apart from the tag and may be missing (`printObject` tests
`GetEntity` against nil).  The aspects map is `none` for a nil map; otherwise it lists
its entries in the order in which a `range` loop of the current run visits them, an order
the language leaves unspecified. -/
structure Object where
  ID : ID
  Type_ : Object_Type
  Obj : Option isObject_Obj
  Aspects : Option (List (Text × Any))
  deriving DecidableEq, Repr

/-- Modelled from the spec: the accessor `GetEntity`, generated code of the topology API:
the entity payload, or nil when the object holds none. -/
def Object.GetEntity (m : Object) : Option Entity :=
  match m.Obj with
  | some (.Object_Entity x) => x
  | _ => none

/-- Modelled from the spec: the accessor `GetRelation`, generated code of the topology
API: the relation payload, or nil when the object holds none. -/
def Object.GetRelation (m : Object) : Option Relation :=
  match m.Obj with
  | some (.Object_Relation x) => x
  | _ => none

/-- Modelled from the spec: the accessor `GetKind`, generated code of the topology API:
the kind payload, or nil when the object holds none. -/
def Object.GetKind (m : Object) : Option Kind :=
  match m.Obj with
  | some (.Object_Kind x) => x
  | _ => none

/-- Modelled from the spec: the accessor `GetName` of a kind pointer, generated code of the
topology API; on a nil receiver it returns the defined empty value. -/
def Kind.GetName (m : Option Kind) : Text :=
  match m with
  | some k => k.Name
  | none => []

/-- The entries a `range` loop over the aspects map visits (none for a nil map). -/
def Object.entries (m : Object) : List (Text × Any) :=
  m.Aspects.getD []

/-! ## Formatted printing -/

/-- An operand of a formatting call. -/
inductive Arg where
  | int (n : Nat)
  | str (s : Text)

/-- The verb `%s` with a width and a precision: the operand is cut to its first `prec`
runes, then padded with spaces to `wid` runes, on the right when the `-` flag is set. -/
def fmtS (minus : Bool) (wid prec : Nat) (s : Text) : Text :=
  let t := s.take prec
  let padding := List.replicate (wid - t.length) ' '
  if minus then t ++ padding else padding ++ t

/-- Interpreter of the format strings of this program: the verbs `%-*.*s` (width and
precision taken from the operands) and `%s`; every other rune is copied. -/
def Sprintf.go : List Char → List Arg → Text
  | '%' :: '-' :: '*' :: '.' :: '*' :: 's' :: rest, Arg.int w :: Arg.int p :: Arg.str s :: args =>
    fmtS true w p s ++ Sprintf.go rest args
  | '%' :: 's' :: rest, Arg.str s :: args => s ++ Sprintf.go rest args
  | c :: rest, args => c :: Sprintf.go rest args
  | [], _ => []

/-- The text `fmt.Sprintf` yields for a format string and its operands. -/
def Sprintf (format : String) (args : List Arg) : Text :=
  Sprintf.go format.toList args

/-- The call `fmt.Fprintf(writer, format, args...)`: the formatted text is appended to
what the writer holds. -/
def Fprintf (writer : Text) (format : String) (args : List Arg) : Text :=
  writer ++ Sprintf format args

/-- The constant `width`. -/
def width : Nat := 16

/-- The constant `prec`. -/
def prec : Nat := width - 1

/-! ## The formatters -/

/-- The function `aspectList`: the aspect type names, joined by commas. -/
def aspectList (object : Object) : Text :=
  match object.Aspects with
  | none => []
  | some aspects =>
    (aspects.foldl
      (fun (st : Text × Bool) (kv : Text × Any) =>
        if !st.2 then ((st.1 ++ ",".toList) ++ kv.1, st.2) else (st.1 ++ kv.1, false))
      ([], true)).1

/-- The function `printAspects`. -/
def printAspects (writer : Text) (object : Object) (verbose : Bool) : Text :=
  if verbose then
    object.entries.foldl
      (fun w (kv : Text × Any) => Fprintf w "\t%s=%s\n" [.str kv.1, .str kv.2.Value])
      writer
  else
    Fprintf writer "\t%s\n" [.str (aspectList object)]

/-- The function `printObject`.  The result is `none` when the call panics: the relation
branch reads the fields of the pointer `GetRelation` returns without testing it. -/
def printObject (writer : Text) (object : Object) (verbose : Bool) : Option Text :=
  match object.Type_ with
  | .ENTITY =>
    let kindID : ID :=
      match object.GetEntity with
      | some e => e.KindID
      | none => []
    some (printAspects
      (Fprintf writer "%-*.*s%-*.*s%-*.*s"
        [.int width, .int prec, .str object.Type_.String, .int width, .int prec, .str object.ID,
         .int width, .int prec, .str kindID])
      object verbose)
  | .RELATION =>
    match object.GetRelation with
    | none => none
    | some r =>
      some (printAspects
        (Fprintf writer "%-*.*s%-*.*s%-*.*s%-*.*s%-*.*s"
          [.int width, .int prec, .str object.Type_.String, .int width, .int prec, .str object.ID,
           .int width, .int prec, .str r.KindID,
           .int width, .int prec, .str r.SrcEntityID, .int width, .int prec, .str r.TgtEntityID])
        object verbose)
  | .KIND =>
    let k := object.GetKind
    some (printAspects
      (Fprintf writer "%-*.*s%-*.*s%-*.*s"
        [.int width, .int prec, .str object.Type_.String, .int width, .int prec, .str object.ID,
         .int width, .int prec, .str (Kind.GetName k)])
      object verbose)
  | _ => some (Fprintf writer "\n" [])

/-- The function `printHeader`. -/
def printHeader (writer : Text) (objectType : Object_Type) (verbose : Bool)
    (printUpdateType : Bool) : Text :=
  let w1 :=
    if printUpdateType then
      Fprintf writer "%-*.*s" [.int width, .int prec, .str "Update Type".toList]
    else writer
  let w2 :=
    if objectType = .ENTITY then
      Fprintf w1 "%-*.*s%-*.*s\n%-*.*s"
        [.int width, .int prec, .str "Object Type".toList,
         .int width, .int prec, .str "Entity ID".toList, .int width, .int prec, .str "Kind ID".toList]
    else if objectType = .RELATION then
      Fprintf w1 "%-*.*s%-*.*s\n%-*.*s%-*.*s%-*.*s"
        [.int width, .int prec, .str "Object Type".toList,
         .int width, .int prec, .str "Relation ID".toList, .int width, .int prec, .str "Kind ID".toList,
         .int width, .int prec, .str "Source ID".toList, .int width, .int prec, .str "Target ID".toList]
    else if objectType = .KIND then
      Fprintf w1 "%-*.*s%-*.*s\n%-*.*s"
        [.int width, .int prec, .str "Object Type".toList,
         .int width, .int prec, .str "Kind ID".toList, .int width, .int prec, .str "Name".toList]
    else w1
  if !verbose then Fprintf w2 "\tAspects\n" [] else w2

/-! ## The fetchers and the dispatcher -/

/-- The command as the dispatcher sees it: its two flags, and what the connection helper
and the remote service answer during this invocation. -/
structure Command where
  noHeaders : Bool
  verbose : Bool
  /-- The error of `cli.GetConnection`, `none` when the connection is established. -/
  GetConnection : Option Error
  /-- The answer of the remote `List` call: an error or the listed objects. -/
  ClientList : Except Error (List Object)
  /-- The answer of the remote `Get` call: an error or the object pointer of the response. -/
  ClientGet : ID → Except Error (Option Object)

/-- The function `listObjects`. -/
def listObjects (cmd : Command) : Except Error (List Object) :=
  match cmd.GetConnection with
  | some err => .error err
  | none =>
    match cmd.ClientList with
    | .error err => .error err
    | .ok objects => .ok objects

/-- The function `getObject`.  It takes and returns the text written to the CLI output,
to which `cli.Output` appends the diagnostic when the remote call fails. -/
def getObject (cmd : Command) (output : Text) (id : ID) : Text × Except Error (Option Object) :=
  match cmd.GetConnection with
  | some err => (output, .error err)
  | none =>
    match cmd.ClientGet id with
    | .error err => (output ++ "get error".toList, .error err)
    | .ok object => (output, .ok object)

/-- How an invocation of the command ends: it returns an error value (`none` for nil),
having handed `writer` to the tab writer and `output` straight to the CLI output, or it
panics. -/
inductive Outcome where
  | returned (writer output : Text) (err : Option Error)
  | panicked
  deriving DecidableEq, Repr

/-- The loop of `runGetCommand` over the listed objects; `none` when a call of
`printObject` panics. -/
def runGetCommand.range (objectType : Object_Type) (verbose : Bool) :
    Text → List Object → Option Text
  | writer, [] => some writer
  | writer, object :: objects =>
    if objectType = object.Type_ then
      match printObject writer object verbose with
      | none => none
      | some writer' => runGetCommand.range objectType verbose writer' objects
    else runGetCommand.range objectType verbose writer objects

/-- The function `runGetCommand`. -/
def runGetCommand (cmd : Command) (args : List Text) (objectType : Object_Type) : Outcome :=
  let noHeaders := cmd.noHeaders
  let verbose := cmd.verbose
  let writer : Text := []
  let writer := if !noHeaders then printHeader writer objectType verbose false else writer
  match args with
  | [] =>
    match listObjects cmd with
    | .ok objects =>
      match runGetCommand.range objectType verbose writer objects with
      | some writer' => .returned writer' [] none
      | none => .panicked
    | .error _ => .returned writer [] none
  | id :: _ =>
    match getObject cmd [] id with
    | (output, .error err) => .returned writer output (some err)
    | (output, .ok none) => .returned writer output none
    | (output, .ok (some object)) =>
      if objectType = object.Type_ then
        match printObject writer object verbose with
        | some writer' => .returned writer' output none
        | none => .panicked
      else .returned writer output none

/-! ## Notions used to state the properties -/

/-- A value cut to its first 15 characters and left-justified with spaces in a field of
exactly 16 characters. -/
def cell (s : Text) : Text :=
  s.take 15 ++ List.replicate (16 - (s.take 15).length) ' '

/-- A label left-justified with spaces in a field of 16 characters. -/
def leftJustify (label : String) : Text :=
  label.toList ++ List.replicate (16 - label.length) ' '

/-- The physical lines of a text: its pieces between line feeds, a last piece without a
line feed included. -/
def physicalLines (t : Text) : List Text :=
  let parts := t.splitOn '\n'
  if parts.getLast? = some [] then parts.dropLast else parts

/-- The kind-identifier of an object, empty when it carries no entity payload. -/
def entityKindID (object : Object) : ID :=
  match object.GetEntity with
  | some e => e.KindID
  | none => []

/-- The field number `i` (from 0) of a row of 16-character fields. -/
def nthField (i : Nat) (row : Text) : Text :=
  (row.drop (i * 16)).take 16

/-- The number of 16-character columns of a header before its tab-separated "Aspects"
column, line feeds not counted. -/
def fixedColumns (header : Text) : Nat :=
  ((header.filter (fun c => c != '\n')).takeWhile (fun c => c != '\t')).length / 16

/-- The line the verbose renderer writes for one aspect: a tab, the aspect type, an
equals sign, the payload as text, a line feed. -/
def aspectLine (kv : Text × Any) : Text :=
  "\t".toList ++ kv.1 ++ "=".toList ++ kv.2.Value ++ "\n".toList

/-- The lines of the verbose renderer, one per entry of the aspects map. -/
def verboseLines (object : Object) : List Text :=
  object.entries.map aspectLine

/-- The row of an object: what `printObject` writes for it to an empty writer (nothing
when it panics). -/
def rowOf (object : Object) (verbose : Bool) : Text :=
  (printObject [] object verbose).getD []

/-! ## Concrete inputs -/

/-- An entity-tagged object that carries no entity payload. -/
def entityWithoutPayload : Object :=
  { ID := "e1".toList, Type_ := .ENTITY, Obj := none, Aspects := none }

/-- A kind-tagged object that carries no kind payload. -/
def kindWithoutPayload : Object :=
  { ID := "k1".toList, Type_ := .KIND, Obj := none, Aspects := none }

/-- A relation-tagged object that carries no relation payload. -/
def relationWithoutPayload : Object :=
  { ID := "r1".toList, Type_ := .RELATION, Obj := none, Aspects := none }

/-- A relation with identifiers longer than the fields. -/
def longRelation : Object :=
  { ID := "relation-0123456789".toList, Type_ := .RELATION,
    Obj := some (.Object_Relation
      (some ⟨"kind-0123456789abc".toList, "e1".toList, "entity-0123456789".toList⟩)),
    Aspects := some [("onos.topo.A".toList, ⟨"v".toList⟩)] }

/-- An entity whose kind-identifier has 18 characters. -/
def longKindEntity : Object :=
  { ID := "e1".toList, Type_ := .ENTITY,
    Obj := some (.Object_Entity (some ⟨"kind-0123456789abc".toList⟩)), Aspects := none }

/-- An object whose aspects map has one entry, under the empty aspect type name. -/
def emptyNameAspect : Object :=
  { ID := "e1".toList, Type_ := .ENTITY, Obj := none,
    Aspects := some [([], ⟨"v".toList⟩)] }

/-- An object with two aspects. -/
def twoAspects : Object :=
  { ID := "e1".toList, Type_ := .ENTITY, Obj := some (.Object_Entity (some ⟨"k1".toList⟩)),
    Aspects := some [("onos.topo.A".toList, ⟨"v".toList⟩), ("onos.topo.B".toList, ⟨"w".toList⟩)] }

/-- The object `twoAspects` when the map is visited in the other order. -/
def twoAspectsSwapped : Object :=
  { twoAspects with
    Aspects := some [("onos.topo.B".toList, ⟨"w".toList⟩), ("onos.topo.A".toList, ⟨"v".toList⟩)] }

/-- An entity with its payload. -/
def entityE1 : Object :=
  { ID := "e1".toList, Type_ := .ENTITY, Obj := some (.Object_Entity (some ⟨"k1".toList⟩)),
    Aspects := some [] }

/-- An invocation whose list call succeeds with an entity and a relation-tagged object
without relation payload. -/
def listWithBareRelation : Command :=
  { noHeaders := false, verbose := false, GetConnection := none,
    ClientList := .ok [entityE1, relationWithoutPayload],
    ClientGet := fun _ => .ok none }

/-- An invocation whose get call succeeds with a relation-tagged object without relation
payload. -/
def getBareRelation : Command :=
  { noHeaders := false, verbose := false, GetConnection := none,
    ClientList := .ok [],
    ClientGet := fun _ => .ok (some relationWithoutPayload) }

/-- An invocation without headers whose remote calls both fail. -/
def remoteFails : Command :=
  { noHeaders := true, verbose := false, GetConnection := none,
    ClientList := .error ⟨"unavailable"⟩,
    ClientGet := fun _ => .error ⟨"not found"⟩ }

/-- An invocation whose get call succeeds with the entity `entityE1`. -/
def getEntityE1 : Command :=
  { noHeaders := false, verbose := false, GetConnection := none,
    ClientList := .ok [],
    ClientGet := fun _ => .ok (some entityE1) }

/-! ## Formatting lemmas -/

theorem fmtS_eq_cell (s : Text) : fmtS true width prec s = cell s := rfl

theorem cell_length (s : Text) : (cell s).length = 16 := by
  simp only [cell, List.length_append, List.length_replicate, List.length_take]
  omega

theorem cell_of_short (s : Text) (h : s.length ≤ 15) :
    cell s = s ++ List.replicate (16 - s.length) ' ' := by
  simp [cell, List.take_of_length_le h]

theorem printAspects_append (writer : Text) (object : Object) (verbose : Bool) :
    printAspects writer object verbose = writer ++ printAspects [] object verbose := by
  cases verbose
  · simp [printAspects, Fprintf]
  · simp only [printAspects, if_true]
    generalize object.entries = es
    suffices h : ∀ (es : List (Text × Any)) (w v : Text),
        List.foldl (fun w (kv : Text × Any) => Fprintf w "\t%s=%s\n" [.str kv.1, .str kv.2.Value])
          (w ++ v) es =
        w ++ List.foldl
          (fun w (kv : Text × Any) => Fprintf w "\t%s=%s\n" [.str kv.1, .str kv.2.Value]) v es by
      simpa using h es writer []
    intro es
    induction es with
    | nil => intro w v; rfl
    | cons kv es ih =>
      intro w v
      simp only [List.foldl_cons]
      have : Fprintf (w ++ v) "\t%s=%s\n" [.str kv.1, .str kv.2.Value]
          = w ++ Fprintf v "\t%s=%s\n" [.str kv.1, .str kv.2.Value] := by
        simp [Fprintf]
      rw [this, ih]

theorem printObject_eq_none_iff (writer : Text) (object : Object) (verbose : Bool) :
    printObject writer object verbose = none ↔
      object.Type_ = .RELATION ∧ object.GetRelation = none := by
  unfold printObject
  cases hT : object.Type_ <;> simp
  cases hr : object.GetRelation <;> simp

theorem printAspects_append_left (w v : Text) (object : Object) (verbose : Bool) :
    printAspects (w ++ v) object verbose = w ++ printAspects v object verbose := by
  rw [printAspects_append (w ++ v), printAspects_append v, List.append_assoc]

theorem printObject_append (writer : Text) (object : Object) (verbose : Bool) :
    printObject writer object verbose =
      (printObject [] object verbose).map (fun row => writer ++ row) := by
  unfold printObject
  cases hT : object.Type_ <;> simp [Fprintf, printAspects_append_left]
  cases hr : object.GetRelation <;> simp

/-! ## The row and header formatters -/

/-- C5, evaluated at the failing input: for a relation-tagged object without relation
payload `printObject` panics (it reads the fields of a nil pointer) instead of
rendering the kind, source and target identifiers as empty values, whereas an
entity-tagged and a kind-tagged object without payload are printed with an empty third
field. -/
theorem printObject_relationWithoutPayload_panics :
    (∀ verbose : Bool, printObject [] relationWithoutPayload verbose = none) ∧
      printObject [] entityWithoutPayload false =
        some "ENTITY          e1                              \t\n".toList ∧
      printObject [] kindWithoutPayload false =
        some "KIND            k1                              \t\n".toList := by
  decide

/-- An entity-tagged or kind-tagged object is always printed, its missing variant field
rendered as the empty value. -/
theorem printObject_entity_kind_total (writer : Text) (object : Object) (verbose : Bool)
    (h : object.Type_ ≠ .RELATION) :
    ∃ row, printObject writer object verbose = some row := by
  cases hp : printObject writer object verbose with
  | some row => exact ⟨row, rfl⟩
  | none => exact absurd ((printObject_eq_none_iff _ _ _).1 hp).1 h

/-- C8: without the update-type column `printHeader` writes, for each of the three type
filters and both verbosity values, two physical lines: the first holds "Object Type"
and the ID label of the type, the second the type-specific labels, each label
left-justified in a field of 16 characters, and the "Aspects" column header (a tab,
the word, a line feed) follows exactly when verbose is false. -/
theorem printHeader_layout :
    ∀ verbose : Bool,
      (printHeader [] .ENTITY verbose false =
          leftJustify "Object Type" ++ leftJustify "Entity ID" ++ "\n".toList ++
            leftJustify "Kind ID" ++ (if verbose then [] else "\tAspects\n".toList) ∧
        physicalLines (printHeader [] .ENTITY verbose false) =
          [leftJustify "Object Type" ++ leftJustify "Entity ID",
           leftJustify "Kind ID" ++ (if verbose then [] else "\tAspects".toList)]) ∧
      (printHeader [] .RELATION verbose false =
          leftJustify "Object Type" ++ leftJustify "Relation ID" ++ "\n".toList ++
            leftJustify "Kind ID" ++ leftJustify "Source ID" ++ leftJustify "Target ID" ++
            (if verbose then [] else "\tAspects\n".toList) ∧
        physicalLines (printHeader [] .RELATION verbose false) =
          [leftJustify "Object Type" ++ leftJustify "Relation ID",
           leftJustify "Kind ID" ++ leftJustify "Source ID" ++ leftJustify "Target ID" ++
             (if verbose then [] else "\tAspects".toList)]) ∧
      (printHeader [] .KIND verbose false =
          leftJustify "Object Type" ++ leftJustify "Kind ID" ++ "\n".toList ++
            leftJustify "Name" ++ (if verbose then [] else "\tAspects\n".toList) ∧
        physicalLines (printHeader [] .KIND verbose false) =
          [leftJustify "Object Type" ++ leftJustify "Kind ID",
           leftJustify "Name" ++ (if verbose then [] else "\tAspects".toList)]) ∧
      (∀ label ∈ ["Object Type", "Entity ID", "Relation ID", "Kind ID", "Source ID",
          "Target ID", "Name"], (leftJustify label).length = 16) := by
  decide

/-- C10: for a relation-tagged object that carries a relation payload, what
`printObject` writes before the aspects is five fields in the order object type,
relation ID, kind ID, source entity ID, target entity ID, the order of the labels of the
relation header; each field is the value cut to its first 15 characters and
left-justified to 16 characters, so this fixed part is 80 characters long. -/
theorem printObject_relation_row (writer : Text) (object : Object) (verbose : Bool)
    (r : Relation) (hT : object.Type_ = .RELATION) (hr : object.GetRelation = some r) :
    printObject writer object verbose =
        some (writer ++
          (cell object.Type_.String ++ cell object.ID ++ cell r.KindID ++
            cell r.SrcEntityID ++ cell r.TgtEntityID) ++
          printAspects [] object verbose) ∧
      (cell object.Type_.String ++ cell object.ID ++ cell r.KindID ++
          cell r.SrcEntityID ++ cell r.TgtEntityID).length = 80 ∧
      (∀ v : Text, (cell v).length = 16 ∧
        cell v = v.take 15 ++ List.replicate (16 - (v.take 15).length) ' ') ∧
      printHeader [] .RELATION true false =
        cell "Object Type".toList ++ cell "Relation ID".toList ++ "\n".toList ++
          (cell "Kind ID".toList ++ cell "Source ID".toList ++ cell "Target ID".toList) := by
  refine ⟨?_, ?_, fun v => ⟨cell_length v, rfl⟩, by decide⟩
  · rw [printObject_append]
    unfold printObject
    simp only [hT, hr, Option.map_some']
    rw [printAspects_append]
    have hfix : Fprintf [] "%-*.*s%-*.*s%-*.*s%-*.*s%-*.*s"
        [.int width, .int prec, .str Object_Type.RELATION.String, .int width, .int prec,
          .str object.ID, .int width, .int prec, .str r.KindID, .int width, .int prec,
          .str r.SrcEntityID, .int width, .int prec, .str r.TgtEntityID] =
        [] ++ (cell Object_Type.RELATION.String ++ (cell object.ID ++ (cell r.KindID ++
          (cell r.SrcEntityID ++ (cell r.TgtEntityID ++ []))))) := rfl
    rw [hfix]
    simp only [List.append_assoc, List.nil_append, List.append_nil]
  · simp only [List.length_append, cell_length]

/-- The relation row property at a relation whose identifiers exceed 15 characters. -/
theorem printObject_relation_row_witness :
    longRelation.Type_ = .RELATION ∧
      longRelation.GetRelation =
        some ⟨"kind-0123456789abc".toList, "e1".toList, "entity-0123456789".toList⟩ ∧
      printObject [] longRelation false =
        some ("RELATION        relation-012345 kind-0123456789 e1              entity-01234567 \tonos.topo.A\n".toList) :=
  ⟨rfl, rfl,
    (printObject_relation_row [] longRelation false
      ⟨"kind-0123456789abc".toList, "e1".toList, "entity-0123456789".toList⟩ rfl rfl).1.trans
      (by decide)⟩

theorem nthField_two (a b c rest : Text) :
    nthField 2 (cell a ++ cell b ++ cell c ++ rest) = cell c := by
  have h : cell a ++ cell b ++ cell c ++ rest = (cell a ++ cell b) ++ (cell c ++ rest) := by
    simp only [List.append_assoc]
  have hl : (cell a ++ cell b).length = 2 * 16 := by
    simp only [List.length_append, cell_length]
  rw [nthField, h, List.drop_left' hl, List.take_left' (cell_length c)]

theorem printObject_entity_eq (writer : Text) (object : Object) (verbose : Bool)
    (hT : object.Type_ = .ENTITY) :
    printObject writer object verbose =
      some (writer ++
        (cell object.Type_.String ++ cell object.ID ++ cell (entityKindID object)) ++
        printAspects [] object verbose) := by
  rw [printObject_append]
  unfold printObject
  simp only [hT, Option.map_some']
  rw [printAspects_append]
  have hfix : Fprintf [] "%-*.*s%-*.*s%-*.*s"
      [.int width, .int prec, .str Object_Type.ENTITY.String, .int width, .int prec,
        .str object.ID, .int width, .int prec, .str (entityKindID object)] =
      [] ++ (cell Object_Type.ENTITY.String ++ (cell object.ID ++
        (cell (entityKindID object) ++ []))) := rfl
  unfold entityKindID at hfix
  rw [hfix]
  simp only [List.append_assoc, List.nil_append, List.append_nil, entityKindID]

/-- C6 as stated fails: for an entity whose kind-identifier has 18 characters the third
field of the row is not that identifier, which occurs nowhere in the row. -/
theorem printObject_entity_third_field_counterexample :
    longKindEntity.Type_ = .ENTITY ∧
      entityKindID longKindEntity = "kind-0123456789abc".toList ∧
      (printObject [] longKindEntity false).map (nthField 2) =
        some "kind-0123456789 ".toList ∧
      (printObject [] longKindEntity false).map (nthField 2) ≠
        some (entityKindID longKindEntity) ∧
      (printObject [] longKindEntity false).map
        (fun row => decide (entityKindID longKindEntity <:+: row)) = some false := by
  decide

/-- C6, amended: for an entity-tagged object the row is three 16-character fields
followed by the aspects; the third field is the kind-identifier cut to its first 15
characters and left-justified to 16 characters, hence the kind-identifier followed by
spaces only when that has at most 15 characters; and the row has as many fixed columns
as the entity header of either verbosity, namely three. -/
theorem printObject_entity_row (writer : Text) (object : Object) (verbose : Bool)
    (hT : object.Type_ = .ENTITY) :
    printObject writer object verbose =
        some (writer ++
          (cell object.Type_.String ++ cell object.ID ++ cell (entityKindID object)) ++
          printAspects [] object verbose) ∧
      (printObject [] object verbose).map (nthField 2) = some (cell (entityKindID object)) ∧
      cell (entityKindID object) =
        (entityKindID object).take 15 ++
          List.replicate (16 - ((entityKindID object).take 15).length) ' ' ∧
      ((entityKindID object).length ≤ 15 →
        cell (entityKindID object) =
          entityKindID object ++ List.replicate (16 - (entityKindID object).length) ' ') ∧
      (cell object.Type_.String ++ cell object.ID ++ cell (entityKindID object)).length / 16 =
        fixedColumns (printHeader [] .ENTITY verbose false) ∧
      fixedColumns (printHeader [] .ENTITY verbose false) = 3 := by
  have hcols : fixedColumns (printHeader [] .ENTITY verbose false) = 3 := by
    revert verbose; decide
  refine ⟨printObject_entity_eq writer object verbose hT, ?_, rfl, cell_of_short _, ?_, hcols⟩
  · rw [printObject_entity_eq [] object verbose hT]
    simp only [Option.map_some', List.nil_append, nthField_two]
  · rw [hcols]
    simp only [List.length_append, cell_length]

/-- The amended entity row property at an entity with an 18-character kind-identifier. -/
theorem printObject_entity_row_witness :
    longKindEntity.Type_ = .ENTITY ∧
      (printObject [] longKindEntity false).map (nthField 2) =
        some (cell (entityKindID longKindEntity)) :=
  ⟨rfl, (printObject_entity_row [] longKindEntity false rfl).2.1⟩

/-! ## The aspect renderer -/

theorem aspectList_foldl_rest (es : List (Text × Any)) (buf : Text) :
    List.foldl
      (fun (st : Text × Bool) (kv : Text × Any) =>
        if !st.2 then ((st.1 ++ ",".toList) ++ kv.1, st.2) else (st.1 ++ kv.1, false))
      (buf, false) es =
    (buf ++ (es.map (fun kv => ",".toList ++ kv.1)).flatten, false) := by
  induction es generalizing buf with
  | nil => simp
  | cons kv es ih =>
    simp only [List.foldl_cons, Bool.not_false, if_true]
    rw [ih]
    simp only [List.map_cons, List.flatten_cons, List.append_assoc]

theorem aspectList_some_cons (object : Object) (kv : Text × Any) (es : List (Text × Any))
    (h : object.Aspects = some (kv :: es)) :
    aspectList object = kv.1 ++ (es.map (fun kv => ",".toList ++ kv.1)).flatten := by
  simp only [aspectList, h, List.foldl_cons, Bool.not_true, Bool.false_eq_true, if_false,
    List.nil_append]
  rw [aspectList_foldl_rest]

/-- C7 as stated fails: a map with one entry whose aspect type name is empty gives the
empty aspect list although the map is neither empty nor absent. -/
theorem aspectList_empty_name_counterexample :
    emptyNameAspect.Aspects ≠ none ∧ emptyNameAspect.Aspects ≠ some [] ∧
      emptyNameAspect.entries.length = 1 ∧
      aspectList emptyNameAspect = [] ∧
      printAspects [] emptyNameAspect false = "\t\n".toList := by
  decide

/-- C7, amended: the non-verbose renderer writes a tab, the aspect list and a line feed,
and the aspect list is the empty string exactly when the aspects map is absent, empty, or
a single entry under the empty aspect type name; in particular, when no entry has an
empty name, exactly when the map is absent or empty. -/
theorem aspectList_eq_nil_iff (object : Object) :
    (∀ writer : Text,
        printAspects writer object false =
          writer ++ "\t".toList ++ aspectList object ++ "\n".toList) ∧
      (aspectList object = [] ↔
        object.Aspects = none ∨ object.Aspects = some [] ∨
          ∃ v, object.Aspects = some [([], v)]) ∧
      ((∀ kv ∈ object.entries, kv.1 ≠ []) →
        (aspectList object = [] ↔ object.Aspects = none ∨ object.Aspects = some [])) := by
  have key : aspectList object = [] ↔
      object.Aspects = none ∨ object.Aspects = some [] ∨
        ∃ v, object.Aspects = some [([], v)] := by
    cases hA : object.Aspects with
    | none => simp [aspectList, hA]
    | some es =>
      cases es with
      | nil => simp [aspectList, hA]
      | cons kv es =>
        rw [aspectList_some_cons object kv es hA]
        obtain ⟨k, v⟩ := kv
        cases es with
        | nil => simp [Prod.ext_iff]
        | cons kv' es' => simp
  refine ⟨?_, key, ?_⟩
  · intro writer
    have h : printAspects writer object false =
        writer ++ ('\t' :: (aspectList object ++ ('\n' :: []))) := rfl
    rw [h]
    simp
  · intro hne
    rw [key]
    constructor
    · rintro (h | h | ⟨v, h⟩)
      · exact Or.inl h
      · exact Or.inr h
      · exact absurd rfl (hne ([], v) (by simp [Object.entries, h]))
    · rintro (h | h)
      · exact Or.inl h
      · exact Or.inr (Or.inl h)

/-- C9: with verbose true `printAspects` writes, after what the writer already holds,
exactly one line per entry of the aspects map, of the form tab, aspect type, equals sign,
payload as text, line feed; the lines written for another visiting order of the same map
are a rearrangement of these; nothing is written for a map without entries; and in a row
of `printObject` these lines follow the fixed columns, which are what `printObject`
writes for the same object without aspects. -/
theorem printAspects_verbose_lines (writer : Text) (object object' : Object)
    (hperm : object'.entries.Perm object.entries) :
    printAspects writer object true = writer ++ (verboseLines object).flatten ∧
      (verboseLines object).length = object.entries.length ∧
      (∀ line, line ∈ verboseLines object ↔
        ∃ kv ∈ object.entries,
          line = "\t".toList ++ kv.1 ++ "=".toList ++ kv.2.Value ++ "\n".toList) ∧
      (verboseLines object').Perm (verboseLines object) ∧
      (object.entries = [] → printAspects writer object true = writer) ∧
      (object.Type_ ≠ .UNSPECIFIED →
        printObject writer object true =
          (printObject writer { object with Aspects := none } true).map
            (fun fixed => fixed ++ (verboseLines object).flatten)) := by
  have hfold : ∀ (es : List (Text × Any)) (w : Text),
      List.foldl (fun w (kv : Text × Any) => Fprintf w "\t%s=%s\n" [.str kv.1, .str kv.2.Value])
        w es = w ++ (es.map aspectLine).flatten := by
    intro es
    induction es with
    | nil => intro w; simp
    | cons kv es ih =>
      intro w
      have hline : Fprintf w "\t%s=%s\n" [.str kv.1, .str kv.2.Value] = w ++ aspectLine kv := by
        have h : Fprintf w "\t%s=%s\n" [.str kv.1, .str kv.2.Value] =
            w ++ ('\t' :: (kv.1 ++ ('=' :: (kv.2.Value ++ ('\n' :: []))))) := rfl
        rw [h]
        simp [aspectLine]
      simp only [List.foldl_cons, hline, ih, List.map_cons, List.flatten_cons, List.append_assoc]
  have hmain : ∀ (w : Text) (o : Object),
      printAspects w o true = w ++ (verboseLines o).flatten := by
    intro w o
    simp only [printAspects, if_true, verboseLines]
    exact hfold _ _
  refine ⟨hmain writer object, by simp [verboseLines], ?_, hperm.map _, ?_, ?_⟩
  · intro line
    simp only [verboseLines, List.mem_map, aspectLine]
    constructor
    · rintro ⟨kv, hkv, rfl⟩; exact ⟨kv, hkv, rfl⟩
    · rintro ⟨kv, hkv, rfl⟩; exact ⟨kv, hkv, rfl⟩
  · intro hnil
    rw [hmain, verboseLines, hnil]
    simp
  · intro hT
    have hvl : ∀ (a : ID) (b : Object_Type) (c : Option isObject_Obj),
        verboseLines { ID := a, Type_ := b, Obj := c, Aspects := none } = [] :=
      fun _ _ _ => rfl
    unfold printObject
    cases hTy : object.Type_ with
    | UNSPECIFIED => exact absurd hTy hT
    | ENTITY => simp [hmain, hvl, Object.GetEntity]
    | RELATION =>
      simp only [Object.GetRelation]
      cases object.Obj with
      | none => simp
      | some p =>
        cases p with
        | Object_Entity x => simp
        | Object_Kind x => simp
        | Object_Relation x => cases x <;> simp [hmain, hvl]
    | KIND => simp [hmain, hvl, Object.GetKind]

/-- The verbose renderer at an object with two aspects, visited in either order: two lines
are written, the same two whatever the order. -/
theorem printAspects_verbose_lines_witness :
    twoAspectsSwapped.entries.Perm twoAspects.entries ∧
      printAspects [] twoAspects true = "\tonos.topo.A=v\n\tonos.topo.B=w\n".toList ∧
      (verboseLines twoAspects).length = 2 ∧
      (verboseLines twoAspectsSwapped).Perm (verboseLines twoAspects) :=
  have hp : twoAspectsSwapped.entries.Perm twoAspects.entries := List.Perm.swap _ _ _
  have h := printAspects_verbose_lines [] twoAspects twoAspectsSwapped hp
  ⟨hp, h.1.trans (by decide), h.2.1.trans (by decide), h.2.2.2.1⟩

/-! ## The dispatcher -/

theorem printObject_eq_rowOf (writer : Text) (object : Object) (verbose : Bool)
    (h : ¬ (object.Type_ = .RELATION ∧ object.GetRelation = none)) :
    printObject writer object verbose = some (writer ++ rowOf object verbose) := by
  rw [printObject_append, rowOf]
  cases hp : printObject [] object verbose with
  | none => exact absurd ((printObject_eq_none_iff _ _ _).1 hp) h
  | some row => rfl

theorem range_eq_rows (objectType : Object_Type) (verbose : Bool) (objects : List Object)
    (h : ∀ o ∈ objects, objectType = o.Type_ →
      ¬ (o.Type_ = .RELATION ∧ o.GetRelation = none)) (writer : Text) :
    runGetCommand.range objectType verbose writer objects =
      some (writer ++
        ((objects.filter (fun o => decide (objectType = o.Type_))).map
          (fun o => rowOf o verbose)).flatten) := by
  induction objects generalizing writer with
  | nil => simp [runGetCommand.range]
  | cons o os ih =>
    have hos : ∀ o' ∈ os, objectType = o'.Type_ →
        ¬ (o'.Type_ = .RELATION ∧ o'.GetRelation = none) :=
      fun o' ho' => h o' (List.mem_cons_of_mem _ ho')
    by_cases hT : objectType = o.Type_
    · simp only [runGetCommand.range, hT, if_true,
        printObject_eq_rowOf writer o verbose (h o (List.mem_cons_self _ _) hT)]
      rw [← hT, ih hos]
      simp [hT]
    · simp only [runGetCommand.range, hT, if_false]
      rw [ih hos]
      simp [hT]

/-- The list path when every listed object of the requested type can be printed: the
header, when enabled, then the rows of exactly the objects whose tag equals the filter,
in the order received, and a nil error. -/
theorem runGetCommand_list_rows (cmd : Command) (objectType : Object_Type)
    (objects : List Object) (hl : listObjects cmd = .ok objects)
    (h : ∀ o ∈ objects, objectType = o.Type_ →
      ¬ (o.Type_ = .RELATION ∧ o.GetRelation = none)) :
    runGetCommand cmd [] objectType =
      .returned
        ((if cmd.noHeaders then [] else printHeader [] objectType cmd.verbose false) ++
          ((objects.filter (fun o => decide (objectType = o.Type_))).map
            (fun o => rowOf o cmd.verbose)).flatten)
        [] none := by
  simp only [runGetCommand, hl, range_eq_rows objectType cmd.verbose objects h]
  cases cmd.noHeaders <;> simp

/-- C1, evaluated at the failing input: with the Relation filter and a successful list
that holds a relation-tagged object without relation payload the command panics in
`printObject`; it neither writes that row nor returns.  With the Entity filter the same
list is printed as stated. -/
theorem runGetCommand_list_bare_relation_panics :
    runGetCommand listWithBareRelation [] .RELATION = .panicked ∧
      runGetCommand listWithBareRelation [] .ENTITY =
        .returned
          (printHeader [] .ENTITY false false ++ rowOf entityE1 false) [] none := by
  decide

/-- C2: when no identifier is given and the list call fails, the command returns a nil
error and has written only the header, when headers are enabled, and nothing otherwise;
this is the outcome of a successful empty list. -/
theorem runGetCommand_list_failure (cmd : Command) (objectType : Object_Type) (e : Error)
    (h : listObjects cmd = .error e) :
    runGetCommand cmd [] objectType =
        .returned (if cmd.noHeaders then [] else printHeader [] objectType cmd.verbose false)
          [] none ∧
      runGetCommand cmd [] objectType =
        runGetCommand { cmd with GetConnection := none, ClientList := .ok [] } [] objectType := by
  have h1 : runGetCommand cmd [] objectType =
      .returned (if cmd.noHeaders then [] else printHeader [] objectType cmd.verbose false)
        [] none := by
    simp only [runGetCommand, h]
    cases cmd.noHeaders <;> simp
  refine ⟨h1, ?_⟩
  rw [h1]
  have h2 : listObjects { cmd with GetConnection := none, ClientList := .ok [] } = .ok [] := rfl
  simp only [runGetCommand, h2, runGetCommand.range]
  cases cmd.noHeaders <;> simp

/-- The list failure property at an invocation without headers whose list call fails:
nothing at all is written and the error is dropped. -/
theorem runGetCommand_list_failure_witness :
    listObjects remoteFails = .error ⟨"unavailable"⟩ ∧
      runGetCommand remoteFails [] .KIND = .returned [] [] none :=
  ⟨rfl, (runGetCommand_list_failure remoteFails .KIND ⟨"unavailable"⟩ rfl).1⟩

/-- C3 as stated fails: when the remote get call fails, the header is not the only text
written; with headers disabled the command still writes the diagnostic "get error". -/
theorem runGetCommand_get_failure_counterexample :
    runGetCommand remoteFails ["e9".toList] .ENTITY =
        .returned [] "get error".toList (some ⟨"not found"⟩) ∧
      runGetCommand remoteFails ["e9".toList] .ENTITY ≠
        .returned [] [] (some ⟨"not found"⟩) := by
  decide

/-- C3, amended: when an identifier is given and the get-by-ID call fails with error
`e`, the command returns that same error and hands no data row to the table writer, only
the header when headers are enabled; the text `output` which `getObject` sent to the CLI
output is the diagnostic "get error" when the remote call failed and empty when the
connection could not be made. -/
theorem runGetCommand_get_failure (cmd : Command) (id : ID) (rest : List Text)
    (objectType : Object_Type) (e : Error) (output : Text)
    (h : getObject cmd [] id = (output, .error e)) :
    runGetCommand cmd (id :: rest) objectType =
        .returned (if cmd.noHeaders then [] else printHeader [] objectType cmd.verbose false)
          output (some e) ∧
      output = (if cmd.GetConnection = none then "get error".toList else []) := by
  constructor
  · simp only [runGetCommand, h]
    cases cmd.noHeaders <;> simp
  · unfold getObject at h
    cases hc : cmd.GetConnection with
    | some err =>
      simp only [hc, Prod.mk.injEq] at h
      simp [← h.1]
    | none =>
      simp only [hc] at h
      cases hg : cmd.ClientGet id with
      | error err =>
        simp only [hg, Prod.mk.injEq] at h
        simp [← h.1]
      | ok o =>
        simp only [hg, Prod.mk.injEq] at h
        exact absurd h.2 (by simp)

/-- The amended get failure property at an invocation whose remote get call fails. -/
theorem runGetCommand_get_failure_witness :
    getObject remoteFails [] "e9".toList = ("get error".toList, .error ⟨"not found"⟩) ∧
      runGetCommand remoteFails ["e9".toList] .RELATION =
        .returned [] "get error".toList (some ⟨"not found"⟩) :=
  ⟨rfl, (runGetCommand_get_failure remoteFails "e9".toList [] .RELATION ⟨"not found"⟩
    "get error".toList rfl).1⟩

/-- The single lookup when the object can be printed or is not of the requested type:
nothing is written for a nil object or an object of another type, one row for an object
of the requested type, and the error is nil. -/
theorem runGetCommand_get_rows (cmd : Command) (id : ID) (rest : List Text)
    (objectType : Object_Type) (found : Option Object)
    (hg : getObject cmd [] id = ([], .ok found))
    (h : ∀ o, found = some o → objectType = o.Type_ →
      ¬ (o.Type_ = .RELATION ∧ o.GetRelation = none)) :
    runGetCommand cmd (id :: rest) objectType =
      .returned
        ((if cmd.noHeaders then [] else printHeader [] objectType cmd.verbose false) ++
          (match found with
            | some o => if objectType = o.Type_ then rowOf o cmd.verbose else []
            | none => []))
        [] none := by
  cases found with
  | none =>
    simp only [runGetCommand, hg]
    cases cmd.noHeaders <;> simp
  | some o =>
    by_cases hT : objectType = o.Type_
    · simp only [runGetCommand, hg, hT, if_true,
        printObject_eq_rowOf _ o cmd.verbose (h o rfl hT)]
      cases cmd.noHeaders <;> simp
    · simp only [runGetCommand, hg, hT, if_false]
      cases cmd.noHeaders <;> simp

/-- C4, evaluated at the failing input: a single lookup with the Relation filter that
succeeds with a relation-tagged object without relation payload panics in `printObject`
instead of printing one row and returning nil.  Looked up with the Entity filter the
same object is a type mismatch: only the header is written and the error is nil. -/
theorem runGetCommand_get_bare_relation_panics :
    runGetCommand getBareRelation ["r1".toList] .RELATION = .panicked ∧
      runGetCommand getBareRelation ["r1".toList] .ENTITY =
        .returned (printHeader [] .ENTITY false false) [] none ∧
      runGetCommand getEntityE1 ["e1".toList] .ENTITY =
        .returned (printHeader [] .ENTITY false false ++ rowOf entityE1 false) [] none := by
  decide

end Topo
